import Mathlib

/-!
Shallow embedding of the `Resizer` class from `src/es6/optimizer.js` and
verification of its specification. Pixel dimensions are natural numbers;
JavaScript arithmetic on them (`Math.round`, `Math.log2`, division) is
embedded as exact rational arithmetic, with `Math.round` as Mathlib's
`round` (both round halves up) and `Math.floor (Math.log2 x)` as
`Int.log 2 x` (equal for every finite positive ratio). Host-provided
capabilities (canvas encoding via `toDataURL`, image decoding) are
parameters of the embedded operations.
-/

namespace Optimize

/-- A decoded raster image (a loaded `Image` object): integer pixel sizes. -/
structure Img where
  width : ℕ
  height : ℕ

/-- The `Resizer` object: both fields are set by the constructor. -/
structure Resizer where
  maxSize : ℕ
  compression : ℕ

/-- The constructor: `this.maxSize = maxSize; this.compression = compression`. -/
def Resizer.construct (maxSize compression : ℕ) : Resizer :=
  { maxSize := maxSize, compression := compression }

/-- Embeds `Math.round` on an exact rational. JavaScript rounds halves toward
positive infinity, i.e. `⌊x + 1/2⌋`, which is Mathlib's `round`. -/
def jsRound (x : ℚ) : ℤ := round x

/-- The guard of the scaling branch:
`img.width > this.maxSize || img.height > this.maxSize`. -/
def needsScale (r : Resizer) (img : Img) : Bool :=
  decide (img.width > r.maxSize) || decide (img.height > r.maxSize)

/-- The inner branch condition `img.width > img.height` choosing which
side is treated as the long one. -/
def widthBranch (img : Img) : Bool :=
  decide (img.width > img.height)

/-- The target dimensions `(cWidth, cHeight)` computed in the scaling branch:
`if (img.width > img.height) { cWidth = maxSize; cHeight = round(h*m/w) }
else { cWidth = round(w*m/h); cHeight = maxSize }`. -/
def cDims (r : Resizer) (img : Img) : ℤ × ℤ :=
  if widthBranch img then
    ((r.maxSize : ℤ), jsRound ((img.height : ℚ) * (r.maxSize : ℚ) / (img.width : ℚ)))
  else
    (jsRound ((img.width : ℚ) * (r.maxSize : ℚ) / (img.height : ℚ)), (r.maxSize : ℤ))

/-- Embeds `let n = Math.floor(Math.log2(img.width / cWidth))`: the number of
halving steps. For a finite positive ratio this floor of the base-two
logarithm is `Int.log 2`. -/
def halvings (r : Resizer) (img : Img) : ℤ :=
  Int.log 2 ((img.width : ℚ) / ((cDims r img).1 : ℚ))

/-- The working-canvas dimensions `w = cWidth * n_pow, h = cHeight * n_pow`
with `n_pow = Math.pow(2, n)`. -/
def workDims (r : Resizer) (img : Img) : ℚ × ℚ :=
  (((cDims r img).1 : ℚ) * 2 ^ halvings r img,
   ((cDims r img).2 : ℚ) * 2 ^ halvings r img)

/-- The dimensions assigned to the `final` canvas: the computed target
dimensions in the scaling branch, the image's own dimensions otherwise. -/
def finalDims (r : Resizer) (img : Img) : ℤ × ℤ :=
  if needsScale r img then cDims r img
  else ((img.width : ℤ), (img.height : ℤ))

/-- The settled value of the promise returned by `scaleAndCompress`. -/
structure Rendered where
  finalWidth : ℤ
  finalHeight : ℤ
  dataURL : String

/-- Embeds `scaleAndCompress(img)`: it sizes the final canvas, renders into it and
resolves with `final.toDataURL('image/jpeg', this.compression / 100)`.
`enc` is the host-provided `toDataURL`, taking the final canvas
dimensions, the mime type and the quality fraction. The executor body
calls `resolve` unconditionally and never calls `reject`, so the embedded
promise outcome is always `Except.ok`. -/
def scaleAndCompress (enc : ℤ → ℤ → String → ℚ → String)
    (r : Resizer) (img : Img) : Except String Rendered :=
  Except.ok
    { finalWidth := (finalDims r img).1
      finalHeight := (finalDims r img).2
      dataURL := enc (finalDims r img).1 (finalDims r img).2 "image/jpeg"
        ((r.compression : ℚ) / 100) }

/-- A `File` as `processFile` sees it: a declared MIME `type` and the
content the `FileReader` yields for it as a data URL (`e.target.result`). -/
structure JsFile where
  type : String
  content : String

/-- Whether `pat` matches at the head of `s`. -/
def matchesAt : List Char → List Char → Bool
  | [], _ => true
  | _ :: _, [] => false
  | p :: ps, c :: cs => decide (p = c) && matchesAt ps cs

/-- Whether `pat` occurs anywhere inside `s`. -/
def findSub (pat : List Char) : List Char → Bool
  | [] => matchesAt pat []
  | c :: cs => matchesAt pat (c :: cs) || findSub pat cs

/-- Embeds `file.type.match('image.*')` as a Boolean: the unanchored regex
`image.*` matches a string exactly when the literal `image` occurs
somewhere in it (the trailing `.*` can match the empty string). -/
def jsMatchImage (t : String) : Bool :=
  findSub "image".toList t.toList

/-- The comparison in `processFile`'s `then` callback:
`if (generatedURL.length < e.target.result.length) return generatedURL;
else return e.target.result;`. -/
def selectSmaller (generatedURL result : String) : String :=
  if generatedURL.length < result.length then generatedURL else result

/-- The settled outcome of the promise returned by `processFile`.
`decode` is the host image decoder: from the data-URL content to a loaded
image, `none` when the content is not a decodable image (then the image
`load` event never fires and the promise never settles, modelled as
`none`). When the declared type does not match `image.*` the promise is
rejected with `'The file is not an image.'`; a promise settles only once,
so that rejection is the outcome even though the code keeps running. -/
def processFile (enc : ℤ → ℤ → String → ℚ → String)
    (decode : String → Option Img) (r : Resizer) (f : JsFile) :
    Option (Except String String) :=
  if jsMatchImage f.type = false then
    some (Except.error "The file is not an image.")
  else
    match decode f.content with
    | none => none
    | some img =>
      match scaleAndCompress enc r img with
      | Except.ok rend => some (Except.ok (selectSmaller rend.dataURL f.content))
      | Except.error e => some (Except.error e)

/-- Which pipeline stages `processFile` executes for a given file. The
reject call for a non-image type is not followed by a `return`, so the
reader is started and the decode begun regardless of the type check;
`scaleAndCompress` runs whenever the decode succeeds. -/
structure PFTrace where
  rejected : Option String
  readAttempted : Bool
  decodeAttempted : Bool
  renderAttempted : Bool

/-- The stages `processFile` actually executes, read off the code:
`reject` fires exactly on a type mismatch, `reader.readAsDataURL(file)`
and `img.src = e.target.result` run unconditionally afterwards, and
`scaleAndCompress` runs exactly when the host decoder accepts the
content. -/
def processFileTrace (decode : String → Option Img) (f : JsFile) : PFTrace :=
  { rejected :=
      if jsMatchImage f.type = false then some "The file is not an image." else none
    readAttempted := true
    decodeAttempted := true
    renderAttempted := (decode f.content).isSome }

/-- Embeds `scaleAndCompress` as a state-passing method on the `Resizer` object:
its body reads `this.maxSize` and `this.compression` but contains no
assignment to `this`, so the object state passes through unchanged. -/
def scaleAndCompressM (enc : ℤ → ℤ → String → ℚ → String) (img : Img)
    (r : Resizer) : Except String Rendered × Resizer :=
  (scaleAndCompress enc r img, r)

/-- Embeds `processFile` as a state-passing method on the `Resizer` object: its
body contains no assignment to `this`, so the object state passes through
unchanged. -/
def processFileM (enc : ℤ → ℤ → String → ℚ → String)
    (decode : String → Option Img) (f : JsFile)
    (r : Resizer) : Option (Except String String) × Resizer :=
  (processFile enc decode r f, r)

end Optimize

namespace Optimize

theorem jsRound_le {x : ℚ} {m : ℤ} (h : x < (m : ℚ) + 1 / 2) : jsRound x ≤ m := by
  unfold jsRound
  rw [round_eq]
  exact Int.floor_le_iff.mpr (by linarith)

theorem jsRound_nonneg {x : ℚ} (hx : 0 ≤ x) : 0 ≤ jsRound x := by
  unfold jsRound
  rw [round_eq]
  exact Int.floor_nonneg.mpr (by linarith)

theorem cDims_width (r : Resizer) (img : Img) (h : img.height < img.width) :
    cDims r img =
      ((r.maxSize : ℤ),
        jsRound ((img.height : ℚ) * (r.maxSize : ℚ) / (img.width : ℚ))) := by
  simp [cDims, widthBranch, h]

theorem cDims_height (r : Resizer) (img : Img) (h : img.width ≤ img.height) :
    cDims r img =
      (jsRound ((img.width : ℚ) * (r.maxSize : ℚ) / (img.height : ℚ)),
        (r.maxSize : ℤ)) := by
  simp [cDims, widthBranch, not_lt.mpr h]

theorem ratio_le {S L m : ℕ} (hL : 0 < L) (hSL : S ≤ L) :
    (S : ℚ) * (m : ℚ) / (L : ℚ) ≤ (m : ℚ) := by
  rw [div_le_iff₀ (by exact_mod_cast hL)]
  have h1 : (S : ℚ) ≤ (L : ℚ) := by exact_mod_cast hSL
  have h2 : (0 : ℚ) ≤ (m : ℚ) := by positivity
  nlinarith

theorem jsRound_ratio_le {S L m : ℕ} (hL : 0 < L) (hSL : S ≤ L) :
    jsRound ((S : ℚ) * (m : ℚ) / (L : ℚ)) ≤ (m : ℤ) := by
  refine jsRound_le ?_
  have := ratio_le (m := m) hL hSL
  push_cast
  linarith

theorem needsScale_iff (r : Resizer) (img : Img) :
    needsScale r img = true ↔ r.maxSize < img.width ∨ r.maxSize < img.height := by
  simp [needsScale]

theorem widthBranch_iff (img : Img) :
    widthBranch img = true ↔ img.height < img.width := by
  simp [widthBranch]

end Optimize

namespace Optimize

/-- C5: for every image with `width ≤ maxSize` and `height ≤ maxSize`,
`scaleAndCompress` takes the no-scale branch: the final canvas is
allocated at exactly `(image.width, image.height)`, so the output
dimensions equal the input dimensions. -/
theorem finalDims_noScale (r : Resizer) (img : Img)
    (hw : img.width ≤ r.maxSize) (hh : img.height ≤ r.maxSize) :
    needsScale r img = false ∧
    finalDims r img = ((img.width : ℤ), (img.height : ℤ)) := by
  have hns : needsScale r img = false := by
    simp [needsScale]
    omega
  exact ⟨hns, by simp [finalDims, hns]⟩

/-- Witness for `finalDims_noScale`: `maxSize = 500`, image `300 × 200`. -/
theorem finalDims_noScale_witness :
    (Img.mk 300 200).width ≤ (Resizer.construct 500 75).maxSize ∧
    (Img.mk 300 200).height ≤ (Resizer.construct 500 75).maxSize ∧
    (needsScale (Resizer.construct 500 75) (Img.mk 300 200) = false ∧
      finalDims (Resizer.construct 500 75) (Img.mk 300 200) = ((300 : ℤ), (200 : ℤ))) :=
  ⟨by decide, by decide, finalDims_noScale _ _ (by decide) (by decide)⟩

/-- C7: for every decoded image, `scaleAndCompress` settles successfully
with a JPEG data URL encoded at quality `compression / 100`; it has no
rejection path. -/
theorem scaleAndCompress_always_ok (enc : ℤ → ℤ → String → ℚ → String)
    (r : Resizer) (img : Img) :
    (∃ rend : Rendered,
        scaleAndCompress enc r img = Except.ok rend ∧
        rend.dataURL =
          enc rend.finalWidth rend.finalHeight "image/jpeg"
            ((r.compression : ℚ) / 100)) ∧
    ∀ e : String, scaleAndCompress enc r img ≠ Except.error e := by
  refine ⟨⟨_, rfl, rfl⟩, ?_⟩
  intro e he
  simp [scaleAndCompress] at he

/-- C8: the configuration is set once at construction and no operation
modifies it: both methods return the object state unchanged, and their
results are computed from the construction-time field values. -/
theorem resizer_config_immutable (m c : ℕ) (enc : ℤ → ℤ → String → ℚ → String)
    (decode : String → Option Img) (img : Img) (f : JsFile) :
    (Resizer.construct m c).maxSize = m ∧
    (Resizer.construct m c).compression = c ∧
    (scaleAndCompressM enc img (Resizer.construct m c)).2 = Resizer.construct m c ∧
    (processFileM enc decode f (Resizer.construct m c)).2 = Resizer.construct m c ∧
    (scaleAndCompressM enc img (Resizer.construct m c)).1 =
      scaleAndCompress enc (Resizer.construct m c) img ∧
    (processFileM enc decode f (Resizer.construct m c)).1 =
      processFile enc decode (Resizer.construct m c) f :=
  ⟨rfl, rfl, rfl, rfl, rfl, rfl⟩

/-- C6: code-behavior theorem. For a file with declared type
`'text/plain'` (which does not match `image.*`), the returned promise is
rejected with `'The file is not an image.'` — but, because the reject has
no early return, the code still starts the reader and the decode, and
runs `scaleAndCompress` whenever the host decoder accepts the content.
This contradicts the claim that no decode or render is attempted. -/
theorem processFileTrace_rejects_but_continues :
    (processFileTrace (fun _ => none) ⟨"text/plain", "hello"⟩).rejected
        = some "The file is not an image." ∧
    (processFileTrace (fun _ => none) ⟨"text/plain", "hello"⟩).readAttempted = true ∧
    (processFileTrace (fun _ => none) ⟨"text/plain", "hello"⟩).decodeAttempted = true ∧
    (processFileTrace (fun _ => some ⟨1, 1⟩) ⟨"text/plain", "hello"⟩).renderAttempted
        = true ∧
    processFile (fun _ _ _ _ => "xy") (fun _ => some ⟨1, 1⟩) (Resizer.construct 500 75)
        ⟨"text/plain", "hello"⟩ = some (Except.error "The file is not an image.") :=
  ⟨rfl, rfl, rfl, rfl, rfl⟩

/-- C9: there is a valid input image (positive integer sides, one side
greater than `maxSize`) whose aspect ratio is so extreme that the
computed shorter target dimension rounds to `0`: the final canvas is
then allocated with a zero width, the divisor `cWidth` of the
halving-count computation is `0`, and the working-canvas width is `0`,
not a positive integer. -/
theorem zero_target_dimension_exists :
    ∃ img : Img, 0 < img.width ∧ 0 < img.height ∧
      needsScale (Resizer.construct 500 75) img = true ∧
      widthBranch img = false ∧
      (cDims (Resizer.construct 500 75) img).1 = 0 ∧
      (finalDims (Resizer.construct 500 75) img).1 = 0 ∧
      (workDims (Resizer.construct 500 75) img).1 = 0 := by
  have hc : (cDims (Resizer.construct 500 75) ⟨1, 10000⟩).1 = 0 := by
    rw [cDims_height _ _ (by norm_num)]
    show jsRound ((1 : ℕ) * ((500 : ℕ) : ℚ) / ((10000 : ℕ) : ℚ)) = 0
    unfold jsRound
    rw [round_eq]
    norm_num
  have hns : needsScale (Resizer.construct 500 75) ⟨1, 10000⟩ = true := by decide
  refine ⟨⟨1, 10000⟩, by norm_num, by norm_num, hns, by decide, hc, ?_, ?_⟩
  · simp [finalDims, hns, hc]
  · simp [workDims, hc]

end Optimize

namespace Optimize

/-- C4: counterexample. For the square image `600 × 600` with
`maxSize = 500`, the width-branch comparison `width > height` is `false`
(so a square image takes the height branch, not the width branch), and
both computed target dimensions equal `maxSize`, refuting "exactly one of
`targetWidth == maxSize` or `targetHeight == maxSize` holds". -/
theorem cDims_square_counterexample :
    needsScale (Resizer.construct 500 75) ⟨600, 600⟩ = true ∧
    widthBranch ⟨600, 600⟩ = false ∧
    (cDims (Resizer.construct 500 75) ⟨600, 600⟩).1 = 500 ∧
    (cDims (Resizer.construct 500 75) ⟨600, 600⟩).2 = 500 ∧
    ¬ (((cDims (Resizer.construct 500 75) ⟨600, 600⟩).1 = 500 ∧
          ¬ (cDims (Resizer.construct 500 75) ⟨600, 600⟩).2 = 500) ∨
        ((cDims (Resizer.construct 500 75) ⟨600, 600⟩).2 = 500 ∧
          ¬ (cDims (Resizer.construct 500 75) ⟨600, 600⟩).1 = 500)) := by
  have h1 : (cDims (Resizer.construct 500 75) ⟨600, 600⟩).1 = 500 := by
    rw [cDims_height _ _ (le_refl _)]
    show jsRound (((600 : ℕ) : ℚ) * ((500 : ℕ) : ℚ) / ((600 : ℕ) : ℚ)) = 500
    unfold jsRound
    rw [round_eq]
    norm_num
  have h2 : (cDims (Resizer.construct 500 75) ⟨600, 600⟩).2 = 500 := by
    rw [cDims_height _ _ (le_refl _)]
    rfl
  exact ⟨by decide, by decide, h1, h2, by tauto⟩

/-- C4 (amended): for every image requiring scaling, at least one of the
computed target dimensions equals `maxSize` (the clamped side); when the
image is square the `width > height` comparison is `false`, so equal
dimensions take the height branch, where `targetHeight` is set to
`maxSize` by clamping and `targetWidth = round(width * maxSize / height)`
also comes out equal to `maxSize`. -/
theorem cDims_at_least_one_max (r : Resizer) (img : Img)
    (hw : 0 < img.width) (hh : 0 < img.height) (hm : 0 < r.maxSize)
    (hs : needsScale r img = true) :
    ((cDims r img).1 = (r.maxSize : ℤ) ∨ (cDims r img).2 = (r.maxSize : ℤ)) ∧
    (img.width = img.height →
      widthBranch img = false ∧
      (cDims r img).1 = (r.maxSize : ℤ) ∧ (cDims r img).2 = (r.maxSize : ℤ)) := by
  constructor
  · by_cases hb : img.height < img.width
    · left
      rw [cDims_width _ _ hb]
    · right
      rw [cDims_height _ _ (not_lt.mp hb)]
  · intro heq
    have hb : widthBranch img = false := by
      simp [widthBranch, heq]
    have hle : img.width ≤ img.height := le_of_eq heq
    refine ⟨hb, ?_, by rw [cDims_height _ _ hle]⟩
    rw [cDims_height _ _ hle]
    show jsRound ((img.width : ℚ) * (r.maxSize : ℚ) / (img.height : ℚ)) = (r.maxSize : ℤ)
    have h0 : ((img.height : ℕ) : ℚ) ≠ 0 := Nat.cast_ne_zero.mpr hh.ne'
    rw [heq, mul_comm, mul_div_assoc, div_self h0, mul_one]
    unfold jsRound
    exact round_natCast r.maxSize

/-- Witness for `cDims_at_least_one_max`: `maxSize = 500`, square image
`600 × 600`. -/
theorem cDims_at_least_one_max_witness :
    0 < (Img.mk 600 600).width ∧ 0 < (Img.mk 600 600).height ∧
    0 < (Resizer.construct 500 75).maxSize ∧
    needsScale (Resizer.construct 500 75) (Img.mk 600 600) = true ∧
    (((cDims (Resizer.construct 500 75) (Img.mk 600 600)).1 =
        ((Resizer.construct 500 75).maxSize : ℤ) ∨
      (cDims (Resizer.construct 500 75) (Img.mk 600 600)).2 =
        ((Resizer.construct 500 75).maxSize : ℤ)) ∧
    ((Img.mk 600 600).width = (Img.mk 600 600).height →
      widthBranch (Img.mk 600 600) = false ∧
      (cDims (Resizer.construct 500 75) (Img.mk 600 600)).1 =
        ((Resizer.construct 500 75).maxSize : ℤ) ∧
      (cDims (Resizer.construct 500 75) (Img.mk 600 600)).2 =
        ((Resizer.construct 500 75).maxSize : ℤ))) :=
  ⟨by decide, by decide, by decide, by decide,
    cDims_at_least_one_max _ _ (by decide) (by decide) (by decide) (by decide)⟩

/-- C2: for every image with a side strictly greater than `maxSize`, the
longer original side is clamped to exactly `maxSize` (the output's longer
side equals `maxSize`), and the shorter side is set to
`round(shorterOriginal * maxSize / longerOriginal)`, which is within one
half pixel of the exact aspect-preserving value. -/
theorem cDims_clamps_long_side (r : Resizer) (img : Img)
    (hw : 0 < img.width) (hh : 0 < img.height) (hm : 0 < r.maxSize)
    (hs : needsScale r img = true) :
    max (cDims r img).1 (cDims r img).2 = (r.maxSize : ℤ) ∧
    min (cDims r img).1 (cDims r img).2 =
      jsRound (((min img.width img.height : ℕ) : ℚ) * (r.maxSize : ℚ) /
        ((max img.width img.height : ℕ) : ℚ)) ∧
    |((min (cDims r img).1 (cDims r img).2 : ℤ) : ℚ) -
        ((min img.width img.height : ℕ) : ℚ) * (r.maxSize : ℚ) /
          ((max img.width img.height : ℕ) : ℚ)| ≤ 1 / 2 := by
  by_cases hb : img.height < img.width
  · rw [cDims_width _ _ hb, min_eq_right hb.le, max_eq_left hb.le]
    have hchle : jsRound ((img.height : ℚ) * (r.maxSize : ℚ) / (img.width : ℚ)) ≤
        ((r.maxSize : ℕ) : ℤ) :=
      jsRound_ratio_le hw hb.le
    refine ⟨max_eq_left hchle, ?_, ?_⟩
    · rw [min_eq_right hchle]
    · rw [min_eq_right hchle, abs_sub_comm]
      simpa [jsRound] using
        abs_sub_round ((img.height : ℚ) * (r.maxSize : ℚ) / (img.width : ℚ))
  · have hwh : img.width ≤ img.height := not_lt.mp hb
    rw [cDims_height _ _ hwh, min_eq_left hwh, max_eq_right hwh]
    have hcwle : jsRound ((img.width : ℚ) * (r.maxSize : ℚ) / (img.height : ℚ)) ≤
        ((r.maxSize : ℕ) : ℤ) :=
      jsRound_ratio_le hh hwh
    refine ⟨max_eq_right hcwle, ?_, ?_⟩
    · rw [min_eq_left hcwle]
    · rw [min_eq_left hcwle, abs_sub_comm]
      simpa [jsRound] using
        abs_sub_round ((img.width : ℚ) * (r.maxSize : ℚ) / (img.height : ℚ))

/-- Witness for `cDims_clamps_long_side`: `maxSize = 500`, image
`600 × 500` (the spec's own concrete scenario, target `500 × 417`). -/
theorem cDims_clamps_long_side_witness :
    0 < (Img.mk 600 500).width ∧ 0 < (Img.mk 600 500).height ∧
    0 < (Resizer.construct 500 75).maxSize ∧
    needsScale (Resizer.construct 500 75) (Img.mk 600 500) = true ∧
    (max (cDims (Resizer.construct 500 75) (Img.mk 600 500)).1
        (cDims (Resizer.construct 500 75) (Img.mk 600 500)).2 =
      ((Resizer.construct 500 75).maxSize : ℤ) ∧
    min (cDims (Resizer.construct 500 75) (Img.mk 600 500)).1
        (cDims (Resizer.construct 500 75) (Img.mk 600 500)).2 =
      jsRound (((min (Img.mk 600 500).width (Img.mk 600 500).height : ℕ) : ℚ) *
        ((Resizer.construct 500 75).maxSize : ℚ) /
        ((max (Img.mk 600 500).width (Img.mk 600 500).height : ℕ) : ℚ)) ∧
    |((min (cDims (Resizer.construct 500 75) (Img.mk 600 500)).1
          (cDims (Resizer.construct 500 75) (Img.mk 600 500)).2 : ℤ) : ℚ) -
        ((min (Img.mk 600 500).width (Img.mk 600 500).height : ℕ) : ℚ) *
          ((Resizer.construct 500 75).maxSize : ℚ) /
          ((max (Img.mk 600 500).width (Img.mk 600 500).height : ℕ) : ℚ)| ≤ 1 / 2) :=
  ⟨by decide, by decide, by decide, by decide,
    cDims_clamps_long_side _ _ (by decide) (by decide) (by decide) (by decide)⟩

end Optimize

namespace Optimize

theorem cDims_fst_le_width (r : Resizer) (img : Img)
    (hw : 0 < img.width) (hh : 0 < img.height)
    (hs : needsScale r img = true) :
    (cDims r img).1 ≤ (img.width : ℤ) := by
  by_cases hb : img.height < img.width
  · rw [cDims_width _ _ hb]
    show (r.maxSize : ℤ) ≤ (img.width : ℤ)
    have hlt : r.maxSize < img.width := by
      rcases (needsScale_iff r img).mp hs with h1 | h2
      · exact h1
      · exact h2.trans hb
    exact_mod_cast hlt.le
  · have hwh : img.width ≤ img.height := not_lt.mp hb
    rw [cDims_height _ _ hwh]
    show jsRound ((img.width : ℚ) * (r.maxSize : ℚ) / (img.height : ℚ)) ≤ (img.width : ℤ)
    have hmh : r.maxSize < img.height := by
      rcases (needsScale_iff r img).mp hs with h1 | h2
      · exact h1.trans_le hwh
      · exact h2
    refine jsRound_le ?_
    have hhq : (0 : ℚ) < (img.height : ℚ) := by exact_mod_cast hh
    have hwq : (0 : ℚ) < (img.width : ℚ) := by exact_mod_cast hw
    have hmq : (r.maxSize : ℚ) < (img.height : ℚ) := by exact_mod_cast hmh
    have hlt : (img.width : ℚ) * (r.maxSize : ℚ) / (img.height : ℚ) < (img.width : ℚ) := by
      rw [div_lt_iff₀ hhq]
      nlinarith
    push_cast
    linarith

/-- C3 (amended): for every image requiring scaling whose computed
`targetWidth` is at least `1`, the halving count
`n = floor(log2(image.width / targetWidth))` is the largest integer
`n ≥ 0` with `targetWidth * 2^n ≤ image.width`; equivalently
`targetWidth * 2^n ≤ originalWidth < targetWidth * 2^(n+1)`. (Without
the `targetWidth ≥ 1` proviso the claim fails: see the counterexample,
where `targetWidth = 0` and no largest such integer exists.) -/
theorem halvings_largest_power (r : Resizer) (img : Img)
    (hw : 0 < img.width) (hh : 0 < img.height) (hm : 0 < r.maxSize)
    (hs : needsScale r img = true) (hcw : 1 ≤ (cDims r img).1) :
    0 ≤ halvings r img ∧
    ((cDims r img).1 : ℚ) * 2 ^ halvings r img ≤ (img.width : ℚ) ∧
    (img.width : ℚ) < ((cDims r img).1 : ℚ) * 2 ^ (halvings r img + 1) ∧
    ∀ k : ℤ, ((cDims r img).1 : ℚ) * 2 ^ k ≤ (img.width : ℚ) → k ≤ halvings r img := by
  have hcwq : (0 : ℚ) < ((cDims r img).1 : ℚ) := by
    exact_mod_cast lt_of_lt_of_le one_pos hcw
  have hwq : (0 : ℚ) < (img.width : ℚ) := by exact_mod_cast hw
  have hq0 : 0 < (img.width : ℚ) / ((cDims r img).1 : ℚ) := div_pos hwq hcwq
  have hn : halvings r img =
      Int.log 2 ((img.width : ℚ) / ((cDims r img).1 : ℚ)) := rfl
  have hmax : ∀ k : ℤ, ((cDims r img).1 : ℚ) * 2 ^ k ≤ (img.width : ℚ) →
      k ≤ halvings r img := by
    intro k hk
    have h2 : ((2 : ℕ) : ℚ) ^ k ≤ (img.width : ℚ) / ((cDims r img).1 : ℚ) := by
      rw [le_div_iff₀ hcwq]
      push_cast
      linarith [hk]
    rw [hn]
    exact (Int.zpow_le_iff_le_log (by norm_num) hq0).mp h2
  have hb1 : ((cDims r img).1 : ℚ) * 2 ^ halvings r img ≤ (img.width : ℚ) := by
    have hfl : ((2 : ℕ) : ℚ) ^ halvings r img ≤
        (img.width : ℚ) / ((cDims r img).1 : ℚ) := by
      rw [hn]
      exact Int.zpow_log_le_self (by norm_num) hq0
    have := mul_le_mul_of_nonneg_left hfl hcwq.le
    rw [mul_div_cancel₀ _ hcwq.ne'] at this
    push_cast at this
    linarith
  have hb2 : (img.width : ℚ) < ((cDims r img).1 : ℚ) * 2 ^ (halvings r img + 1) := by
    have h2 := Int.lt_zpow_succ_log_self (b := 2) (by norm_num)
      ((img.width : ℚ) / ((cDims r img).1 : ℚ))
    rw [div_lt_iff₀ hcwq] at h2
    rw [hn]
    push_cast at h2 ⊢
    linarith
  have hzero : (0 : ℤ) ≤ halvings r img := by
    refine hmax 0 ?_
    have := cDims_fst_le_width r img hw hh hs
    have hle : ((cDims r img).1 : ℚ) ≤ (img.width : ℚ) := by exact_mod_cast this
    simpa using hle
  exact ⟨hzero, hb1, hb2, hmax⟩

/-- Witness for `halvings_largest_power`: `maxSize = 500`, image
`2000 × 1000` (the spec's own concrete scenario, `n = 2`). -/
theorem halvings_largest_power_witness :
    0 < (Img.mk 2000 1000).width ∧ 0 < (Img.mk 2000 1000).height ∧
    0 < (Resizer.construct 500 75).maxSize ∧
    needsScale (Resizer.construct 500 75) (Img.mk 2000 1000) = true ∧
    1 ≤ (cDims (Resizer.construct 500 75) (Img.mk 2000 1000)).1 ∧
    (0 ≤ halvings (Resizer.construct 500 75) (Img.mk 2000 1000) ∧
    ((cDims (Resizer.construct 500 75) (Img.mk 2000 1000)).1 : ℚ) *
        2 ^ halvings (Resizer.construct 500 75) (Img.mk 2000 1000) ≤
      ((Img.mk 2000 1000).width : ℚ) ∧
    ((Img.mk 2000 1000).width : ℚ) <
      ((cDims (Resizer.construct 500 75) (Img.mk 2000 1000)).1 : ℚ) *
        2 ^ (halvings (Resizer.construct 500 75) (Img.mk 2000 1000) + 1) ∧
    ∀ k : ℤ, ((cDims (Resizer.construct 500 75) (Img.mk 2000 1000)).1 : ℚ) * 2 ^ k ≤
        ((Img.mk 2000 1000).width : ℚ) →
      k ≤ halvings (Resizer.construct 500 75) (Img.mk 2000 1000)) :=
  ⟨by decide, by decide, by decide, by decide,
    by
      rw [cDims_width _ _ (by decide)]
      show (1 : ℤ) ≤ ((Resizer.construct 500 75).maxSize : ℤ)
      decide,
    halvings_largest_power _ _ (by decide) (by decide) (by decide) (by decide)
      (by
        rw [cDims_width _ _ (by decide)]
        show (1 : ℤ) ≤ ((Resizer.construct 500 75).maxSize : ℤ)
        decide)⟩

/-- C3: counterexample. For `maxSize = 500` and the valid image
`1 × 10000` (which requires scaling), the computed `targetWidth` is `0`,
so `targetWidth * 2^(n+1)` is `0` for every integer `n`: the strict upper
bound `originalWidth < targetWidth * 2^(n+1)` claimed for the computed
halving count fails, and no largest integer `n` with
`targetWidth * 2^n ≤ image.width` exists at all. -/
theorem halvings_no_largest_counterexample :
    needsScale (Resizer.construct 500 75) ⟨1, 10000⟩ = true ∧
    (cDims (Resizer.construct 500 75) ⟨1, 10000⟩).1 = 0 ∧
    ¬ (((⟨1, 10000⟩ : Img).width : ℚ) <
        ((cDims (Resizer.construct 500 75) ⟨1, 10000⟩).1 : ℚ) *
          2 ^ (halvings (Resizer.construct 500 75) ⟨1, 10000⟩ + 1)) ∧
    ¬ ∃ n : ℤ, ((cDims (Resizer.construct 500 75) ⟨1, 10000⟩).1 : ℚ) * 2 ^ n ≤
          ((⟨1, 10000⟩ : Img).width : ℚ) ∧
        ∀ k : ℤ, ((cDims (Resizer.construct 500 75) ⟨1, 10000⟩).1 : ℚ) * 2 ^ k ≤
            ((⟨1, 10000⟩ : Img).width : ℚ) → k ≤ n := by
  have hc : (cDims (Resizer.construct 500 75) ⟨1, 10000⟩).1 = 0 := by
    rw [cDims_height _ _ (by norm_num)]
    show jsRound (((1 : ℕ) : ℚ) * ((500 : ℕ) : ℚ) / ((10000 : ℕ) : ℚ)) = 0
    unfold jsRound
    rw [round_eq]
    norm_num
  refine ⟨by decide, hc, ?_, ?_⟩
  · rw [hc]
    push_cast
    simp
  · rintro ⟨n, -, hmax⟩
    have h1 := hmax (n + 1) (by rw [hc]; push_cast; simp)
    omega

end Optimize

namespace Optimize

/-- C1: for every file whose type matches `image.*` and whose content the
host decodes, `processFile` resolves with `selectSmaller` applied to the
recompressed data URL and the original encoded content: the result is one
of the two candidates and its length is exactly the minimum of the two
lengths, in particular never more than either. -/
theorem processFile_returns_shorter (enc : ℤ → ℤ → String → ℚ → String)
    (decode : String → Option Img) (r : Resizer) (f : JsFile) (img : Img)
    (hty : jsMatchImage f.type = true) (hdec : decode f.content = some img) :
    ∃ gen : String,
      processFile enc decode r f = some (Except.ok (selectSmaller gen f.content)) ∧
      (selectSmaller gen f.content = gen ∨ selectSmaller gen f.content = f.content) ∧
      (selectSmaller gen f.content).length = min gen.length f.content.length := by
  refine ⟨enc (finalDims r img).1 (finalDims r img).2 "image/jpeg"
    ((r.compression : ℚ) / 100), ?_, ?_, ?_⟩
  · simp [processFile, hty, hdec, scaleAndCompress]
  · unfold selectSmaller
    split
    · exact Or.inl rfl
    · exact Or.inr rfl
  · unfold selectSmaller
    split
    · next h => omega
    · next h => omega

/-- Witness for `processFile_returns_shorter`: an image-typed file with
content `"abc"`, a decoder yielding a `1 × 1` image, and an encoder
producing `"xy"`. -/
theorem processFile_returns_shorter_witness :
    jsMatchImage (JsFile.mk "image/png" "abc").type = true ∧
    (fun _ : String => some (Img.mk 1 1)) (JsFile.mk "image/png" "abc").content =
      some (Img.mk 1 1) ∧
    ∃ gen : String,
      processFile (fun _ _ _ _ => "xy") (fun _ => some (Img.mk 1 1))
          (Resizer.construct 500 75) (JsFile.mk "image/png" "abc") =
        some (Except.ok (selectSmaller gen (JsFile.mk "image/png" "abc").content)) ∧
      (selectSmaller gen (JsFile.mk "image/png" "abc").content = gen ∨
        selectSmaller gen (JsFile.mk "image/png" "abc").content =
          (JsFile.mk "image/png" "abc").content) ∧
      (selectSmaller gen (JsFile.mk "image/png" "abc").content).length =
        min gen.length (JsFile.mk "image/png" "abc").content.length :=
  ⟨by decide, rfl,
    processFile_returns_shorter _ _ _ _ (Img.mk 1 1) (by decide) rfl⟩

/-- C10: when the recompressed data URL has exactly the same length as
the original encoded content, `processFile` returns the original content,
not the recompressed one: the comparison is strict less-than in favor of
the recompressed result. -/
theorem processFile_tie_returns_original (enc : ℤ → ℤ → String → ℚ → String)
    (decode : String → Option Img) (r : Resizer) (f : JsFile) (img : Img)
    (hty : jsMatchImage f.type = true) (hdec : decode f.content = some img)
    (hlen : (enc (finalDims r img).1 (finalDims r img).2 "image/jpeg"
        ((r.compression : ℚ) / 100)).length = f.content.length) :
    processFile enc decode r f = some (Except.ok f.content) := by
  simp only [processFile, hty, hdec, scaleAndCompress]
  have hno : ¬ (enc (finalDims r img).1 (finalDims r img).2 "image/jpeg"
      ((r.compression : ℚ) / 100)).length < f.content.length := by
    omega
  simp [selectSmaller, hno]

/-- Witness for `processFile_tie_returns_original`: encoder output
`"xyz"` and original content `"abc"` have equal length `3`, and the
original `"abc"` is returned. -/
theorem processFile_tie_returns_original_witness :
    jsMatchImage (JsFile.mk "image/png" "abc").type = true ∧
    (fun _ : String => some (Img.mk 1 1)) (JsFile.mk "image/png" "abc").content =
      some (Img.mk 1 1) ∧
    ((fun _ _ _ _ => "xyz" : ℤ → ℤ → String → ℚ → String)
        (finalDims (Resizer.construct 500 75) (Img.mk 1 1)).1
        (finalDims (Resizer.construct 500 75) (Img.mk 1 1)).2 "image/jpeg"
        (((Resizer.construct 500 75).compression : ℚ) / 100)).length =
      (JsFile.mk "image/png" "abc").content.length ∧
    processFile (fun _ _ _ _ => "xyz") (fun _ => some (Img.mk 1 1))
        (Resizer.construct 500 75) (JsFile.mk "image/png" "abc") =
      some (Except.ok (JsFile.mk "image/png" "abc").content) :=
  ⟨by decide, rfl, rfl,
    processFile_tie_returns_original _ _ _ _ (Img.mk 1 1) (by decide) rfl rfl⟩

end Optimize
